import Mathlib

/-!
Verification of the VectorLab viewport/navigation engine against its
specification.  The repository holds two revisions of `vectorlab.rs`; the
numeric state (`zoom`, `pan`, cursor positions) is modelled over `ℚ`,
standing in for the Rust `f32`/`f64` values with exact arithmetic.
Definitions are translated from the source; components the spec describes
but no source revision implements are marked `Modelled from the spec:`.
-/

namespace VectorLab

/-- A 2-D affine transform, as in `tiny_skia::Transform` used by
`src/src/vectorlab.rs`: components `sx kx ky sy tx ty`, mapping
`(x, y) ↦ (sx*x + kx*y + tx, ky*x + sy*y + ty)`. -/
structure Transform where
  sx : ℚ
  kx : ℚ
  ky : ℚ
  sy : ℚ
  tx : ℚ
  ty : ℚ
  deriving Repr, DecidableEq

/-- `Transform::from_scale(sx, sy)`: pure scale about the origin. -/
def Transform.from_scale (sx sy : ℚ) : Transform :=
  ⟨sx, 0, 0, sy, 0, 0⟩

/-- `Transform::post_translate(tx, ty)`: append a translation after the
existing transform (translation in the target space). -/
def Transform.post_translate (t : Transform) (dx dy : ℚ) : Transform :=
  { t with tx := t.tx + dx, ty := t.ty + dy }

/-- Apply a transform to a point. -/
def Transform.applyPt (t : Transform) (p : ℚ × ℚ) : ℚ × ℚ :=
  (t.sx * p.1 + t.kx * p.2 + t.tx, t.ky * p.1 + t.sy * p.2 + t.ty)

/-- Default zoom lower bound (spec §3: defaults 0.1–10.0). -/
def zoom_min : ℚ := 1 / 10

/-- Default zoom upper bound (spec §3: defaults 0.1–10.0). -/
def zoom_max : ℚ := 10

/-- The view state of the navigation core (spec §3 `ViewportState`;
in `src/src/vectorlab.rs` these are the locals `zoom`, `pan`,
`width`/`height` declared at lines 232–237). -/
structure ViewportState where
  zoom : ℚ
  pan : ℚ × ℚ
  viewport_size : ℕ × ℕ
  document_size : ℚ × ℚ
  deriving Repr, DecidableEq

/-- The initial view state of `src/src/vectorlab.rs` (lines 232–237):
`zoom = 1.0`, `pan = (0,0)`, `width = 800`, `height = 600`. -/
def initViewport : ViewportState :=
  { zoom := 1, pan := (0, 0), viewport_size := (800, 600),
    document_size := (400, 300) }

/-- The view state satisfies the spec invariant `zoom ∈ [zoom_min, zoom_max]`. -/
def ViewportState.validZoom (s : ViewportState) : Prop :=
  zoom_min ≤ s.zoom ∧ s.zoom ≤ zoom_max

instance (s : ViewportState) : Decidable s.validZoom := by
  unfold ViewportState.validZoom; infer_instance

/-- The document→screen transform, from `src/src/vectorlab.rs` lines 304–305:
`Transform::from_scale(zoom, zoom).post_translate(pan.0, pan.1)`. -/
def forward_transform (s : ViewportState) : Transform :=
  (Transform.from_scale s.zoom s.zoom).post_translate s.pan.1 s.pan.2

/-- Modelled from the spec: `inverse_transform` (spec §4.2) is absent from
both source revisions; it is the algebraic inverse of `forward_transform`,
failing exactly when the zoom is degenerate (zero; non-finite values do not
exist in the exact rational model). -/
def inverse_transform (s : ViewportState) : Option Transform :=
  if s.zoom = 0 then none
  else some ⟨1 / s.zoom, 0, 0, 1 / s.zoom,
             -s.pan.1 / s.zoom, -s.pan.2 / s.zoom⟩

/-- Modelled from the spec: `screen_to_document` (spec §4.2) applies the
inverse transform to a screen point. -/
def screen_to_document (s : ViewportState) (p : ℚ × ℚ) : Option (ℚ × ℚ) :=
  (inverse_transform s).map (fun t => t.applyPt p)

/-- Clamp a value into `[lo, hi]`. -/
def clamp (x lo hi : ℚ) : ℚ :=
  max lo (min x hi)

/-- Modelled from the spec: `apply_zoom_delta` (spec §4.1) is absent from
both source revisions (the `MouseWheel` arm of `src/vectorlab.rs` is an
empty stub and `src/src/vectorlab.rs` has no wheel handler): multiply the
zoom by `factor`, clamp it to `[zoom_min, zoom_max]`, then re-solve the pan
so the document point under `anchor` stays under that screen point.  The
spec's non-finite no-op guard is vacuous in the exact rational model; the
corresponding degenerate case here is a zero zoom, on which the mutation is
a no-op. -/
def apply_zoom_delta (s : ViewportState) (factor : ℚ) (anchor : ℚ × ℚ) :
    ViewportState :=
  match screen_to_document s anchor with
  | none => s
  | some docAnchor =>
    let newZoom := clamp (s.zoom * factor) zoom_min zoom_max
    { s with
      zoom := newZoom,
      pan := (anchor.1 - docAnchor.1 * newZoom,
              anchor.2 - docAnchor.2 * newZoom) }

/-- Modelled from the spec: `apply_pan_delta` (spec §4.1) adds to pan
unconditionally. -/
def apply_pan_delta (s : ViewportState) (dx dy : ℚ) : ViewportState :=
  { s with pan := (s.pan.1 + dx, s.pan.2 + dy) }

/-- Fold a list of `(factor, anchor)` zoom requests over a view state. -/
def apply_zoom_deltas (s : ViewportState) (ds : List (ℚ × (ℚ × ℚ))) :
    ViewportState :=
  ds.foldl (fun st d => apply_zoom_delta st d.1 d.2) s

/-- Logical keys as compared by `src/src/vectorlab.rs`: the code only ever
compares against `Key::Character("q")`; `escape` and `other` cover the
remaining keys, which no handler matches. -/
inductive LogicalKey where
  | character (s : String)
  | escape
  | other
  deriving Repr, DecidableEq

/-- The window events consumed by the `event_loop.run` closure of
`src/src/vectorlab.rs` (lines 249–325): `keyboardInput` carries the
logical key, pressed state and repeat flag of the winit `KeyEvent`;
`modifiersChanged` carries whether control is reported held; `resized`
carries the new size; `otherEvent` stands for every event the outer
`match` ignores (`_ => {}`). -/
inductive WEvent where
  | keyboardInput (key : LogicalKey) (pressed : Bool) (isRepeat : Bool)
  | modifiersChanged (ctrl : Bool)
  | closeRequested
  | redrawRequested
  | resized (w h : ℕ)
  | resumed
  | otherEvent
  deriving Repr, DecidableEq

/-- The mutable state owned by `main` in `src/src/vectorlab.rs` together
with the GL plumbing the handlers touch: `zoom`, `pan`, `last_cursor_pos`,
`dragging`, `width`, `height` are the view-state locals declared at lines
232–237 (no active handler ever writes them); `glStateSome` models whether
`gl_state` holds a surface; `surfaceSize` models the size last passed to
`surface.resize`; `exited` records a call to `elwt.exit()`; `panicked`
records an aborting `unwrap` (the `try_into()` to `NonZeroU32` in the
`Resized` arm, cf. the explicit `NonZeroU32::new(..).unwrap()` of lines
169–170, fails on a zero dimension). -/
structure AppState where
  zoom : ℚ
  pan : ℚ × ℚ
  last_cursor_pos : Option (ℚ × ℚ)
  dragging : Bool
  width : ℕ
  height : ℕ
  glStateSome : Bool
  surfaceSize : ℕ × ℕ
  exited : Bool
  panicked : Bool
  deriving Repr, DecidableEq

/-- The state at entry to `event_loop.run` (`src/src/vectorlab.rs` lines
230–237: `zoom = 1.0`, `pan = (0,0)`, `last_cursor_pos = None`,
`dragging = false`, `width = 800`, `height = 600`;
`gl_state = Some(init_gl(..))` from line 198). -/
def initAppState : AppState :=
  { zoom := 1, pan := (0, 0), last_cursor_pos := none, dragging := false,
    width := 800, height := 600, glStateSome := true,
    surfaceSize := (800, 600), exited := false, panicked := false }

/-- One dispatch of the `event_loop.run` closure of `src/src/vectorlab.rs`
(lines 239–326), faithful to the source: the `modifiers` variable is a
local re-initialized to `Modifiers::default()` at the start of every
dispatch (line 245), so the control-key test of the `KeyboardInput` arm
(line 254) always reads `false` and the store in the `ModifiersChanged`
arm is dead.  A panic aborts the run, so a panicked state absorbs all
further events. -/
def step (s : AppState) (e : WEvent) : AppState :=
  if s.panicked then s
  else
    let modifiersCtrl := false
    match e with
    | .keyboardInput key pressed _isRepeat =>
        if pressed && (key == .character "q") && modifiersCtrl then
          { s with exited := true }
        else s
    | .modifiersChanged _c => s
    | .closeRequested => { s with exited := true }
    | .redrawRequested => s
    | .resized w h =>
        if s.glStateSome then
          if w = 0 ∨ h = 0 then { s with panicked := true }
          else { s with surfaceSize := (w, h) }
        else s
    | .resumed => { s with glStateSome := true }
    | .otherEvent => s

/-- Run the event loop over a list of delivered events. -/
def runEvents (s : AppState) (es : List WEvent) : AppState :=
  es.foldl step s

/-- Modelled from the spec: the `InputController` drag state (spec §3/§4.3)
is absent from both source revisions (the `MouseInput` and `CursorMoved`
arms of `src/vectorlab.rs` are empty stubs; `src/src/vectorlab.rs` only
declares `dragging` and `last_cursor_pos` and never uses them). -/
structure InputState where
  vs : ViewportState
  dragging : Bool
  last_pointer_screen_pos : Option (ℚ × ℚ)
  deriving Repr, DecidableEq

/-- Modelled from the spec: the pointer events of the `InputEvent` union
(spec §3) that drive the drag machine. -/
inductive PointerEvent where
  | pointerMoved (x y : ℚ)
  | pointerButtonLeft (pressed : Bool)
  deriving Repr, DecidableEq

/-- Modelled from the spec (§4.3): `Idle + press(Left)` enters `Dragging`
recording `last_pointer_screen_pos = None`; `Dragging + PointerMoved(x,y)`
pans by the delta from the recorded position when one is set and records
`(x,y)` unconditionally (the first move after a press only sets the
baseline, producing zero delta); `release(Left)` returns to `Idle` and
clears the drag state; all other combinations are ignored. -/
def input_step (st : InputState) (e : PointerEvent) : InputState :=
  match e with
  | .pointerButtonLeft true =>
      if st.dragging then st
      else { st with dragging := true, last_pointer_screen_pos := none }
  | .pointerButtonLeft false =>
      { st with dragging := false, last_pointer_screen_pos := none }
  | .pointerMoved x y =>
      if st.dragging then
        match st.last_pointer_screen_pos with
        | some l =>
            { st with vs := apply_pan_delta st.vs (x - l.1) (y - l.2),
                      last_pointer_screen_pos := some (x, y) }
        | none => { st with last_pointer_screen_pos := some (x, y) }
      else st

/-- Run the input controller over a list of pointer events. -/
def run_pointer (st : InputState) (es : List PointerEvent) : InputState :=
  es.foldl input_step st

/-- The input controller state at startup: initial view, not dragging. -/
def initInputState : InputState :=
  { vs := initViewport, dragging := false, last_pointer_screen_pos := none }

/-- Modelled from the spec: `RenderScheduler` (spec §4.4) is absent from
both source revisions; a boolean dirty flag. -/
structure RenderScheduler where
  dirty : Bool
  deriving Repr, DecidableEq

/-- Modelled from the spec: `mark_dirty()` sets the flag (idempotent). -/
def mark_dirty (r : RenderScheduler) : RenderScheduler :=
  { r with dirty := true }

/-- Modelled from the spec: `take_dirty()` returns the current flag value
and clears it (single-threaded read-then-reset). -/
def take_dirty (r : RenderScheduler) : Bool × RenderScheduler :=
  (r.dirty, { r with dirty := false })

/-- `env::args().nth(1).map(PathBuf::from)` from `src/vectorlab.rs` line
14: the optional single positional argument (index 0 is the program
name; anything beyond the first argument is ignored). -/
def svg_file_arg (args : List String) : Option String :=
  args.get? 1

/-- A loaded document as the core sees it: an opaque size (spec §1/§6). -/
structure DocTree where
  size : ℚ × ℚ
  deriving Repr, DecidableEq

/-- The built-in placeholder document written and loaded by
`src/src/vectorlab.rs` lines 219–227 when no document file is present:
`<svg width="400" height="300" ...>`. -/
def placeholderTree : DocTree :=
  ⟨(400, 300)⟩

/-- Document selection from `src/src/vectorlab.rs` lines 207–228: the
document file when one exists, otherwise the built-in placeholder. -/
def load_initial_tree (fileTree : Option DocTree) : DocTree :=
  match fileTree with
  | some t => t
  | none => placeholderTree

end VectorLab

namespace VectorLab

theorem clamp_mem (x lo hi : ℚ) (h : lo ≤ hi) :
    lo ≤ clamp x lo hi ∧ clamp x lo hi ≤ hi := by
  unfold clamp
  constructor
  · exact le_max_left _ _
  · exact max_le h (min_le_right _ _)

theorem apply_zoom_delta_validZoom (s : ViewportState) (f : ℚ) (a : ℚ × ℚ)
    (hs : s.validZoom) : (apply_zoom_delta s f a).validZoom := by
  unfold apply_zoom_delta
  cases hsd : screen_to_document s a with
  | none => simpa using hs
  | some d =>
    simp only [ViewportState.validZoom]
    exact clamp_mem (s.zoom * f) zoom_min zoom_max (by norm_num [zoom_min, zoom_max])

/-- C5: `forward_transform` composes scale-then-translate: for every view
state and document point, the screen point is `document * zoom + pan` — the
zoom scale (anchored at the origin) is applied first, and the pan
translation is added afterwards in screen space. -/
theorem forward_transform_scale_then_translate (s : ViewportState) (p : ℚ × ℚ) :
    (forward_transform s).applyPt p =
      (p.1 * s.zoom + s.pan.1, p.2 * s.zoom + s.pan.2) ∧
    (forward_transform s).applyPt p =
      (((Transform.from_scale s.zoom s.zoom).applyPt p).1 + s.pan.1,
       ((Transform.from_scale s.zoom s.zoom).applyPt p).2 + s.pan.2) := by
  constructor
  · simp [forward_transform, Transform.from_scale, Transform.post_translate,
      Transform.applyPt, mul_comm]
  · simp [forward_transform, Transform.from_scale, Transform.post_translate,
      Transform.applyPt]

/-- C1: for every sequence of `apply_zoom_delta` calls starting from a view
state whose zoom satisfies the invariant, the resulting zoom stays within
`[zoom_min, zoom_max]` (defaults 0.1 to 10.0).  Wheel events reduce to
`apply_zoom_delta` calls (spec §4.3), so no wheel or zoom operation can
drive the zoom outside these bounds. -/
theorem zoom_stays_in_bounds (s : ViewportState) (hs : s.validZoom)
    (ds : List (ℚ × (ℚ × ℚ))) :
    zoom_min ≤ (apply_zoom_deltas s ds).zoom ∧
      (apply_zoom_deltas s ds).zoom ≤ zoom_max := by
  induction ds generalizing s with
  | nil => exact hs
  | cons d rest ih =>
    exact ih (apply_zoom_delta s d.1 d.2) (apply_zoom_delta_validZoom s d.1 d.2 hs)

/-- Witness for C1 at a concrete state and zoom sequence. -/
theorem zoom_stays_in_bounds_witness :
    initViewport.validZoom ∧
      (zoom_min ≤ (apply_zoom_deltas initViewport
          [(2, (100, 100)), (30, (0, 0)), (1/1000, (7, 8))]).zoom ∧
        (apply_zoom_deltas initViewport
          [(2, (100, 100)), (30, (0, 0)), (1/1000, (7, 8))]).zoom ≤ zoom_max) :=
  ⟨by constructor <;> norm_num [initViewport, ViewportState.validZoom, zoom_min, zoom_max],
   zoom_stays_in_bounds initViewport
     (by constructor <;> norm_num [initViewport, ViewportState.validZoom, zoom_min, zoom_max])
     [(2, (100, 100)), (30, (0, 0)), (1/1000, (7, 8))]⟩

theorem forward_applyPt (s : ViewportState) (q : ℚ × ℚ) :
    (forward_transform s).applyPt q =
      (s.zoom * q.1 + s.pan.1, s.zoom * q.2 + s.pan.2) := by
  unfold forward_transform Transform.from_scale Transform.post_translate
    Transform.applyPt
  rw [Prod.mk.injEq]
  exact ⟨by ring, by ring⟩

theorem inverse_transform_of_ne (s : ViewportState) (hz : s.zoom ≠ 0) :
    inverse_transform s =
      some ⟨1 / s.zoom, 0, 0, 1 / s.zoom,
            -s.pan.1 / s.zoom, -s.pan.2 / s.zoom⟩ := by
  unfold inverse_transform
  rw [if_neg hz]

theorem screen_to_document_of_ne (s : ViewportState) (a : ℚ × ℚ)
    (hz : s.zoom ≠ 0) :
    screen_to_document s a =
      some ((a.1 - s.pan.1) / s.zoom, (a.2 - s.pan.2) / s.zoom) := by
  unfold screen_to_document
  rw [inverse_transform_of_ne s hz]
  unfold Transform.applyPt
  simp only [Option.map_some', Option.some.injEq, Prod.mk.injEq]
  exact ⟨by ring, by ring⟩

theorem apply_zoom_delta_of_ne (s : ViewportState) (f : ℚ) (a : ℚ × ℚ)
    (hz : s.zoom ≠ 0) :
    apply_zoom_delta s f a =
      { s with
        zoom := clamp (s.zoom * f) zoom_min zoom_max,
        pan := (a.1 - (a.1 - s.pan.1) / s.zoom * clamp (s.zoom * f) zoom_min zoom_max,
                a.2 - (a.2 - s.pan.2) / s.zoom * clamp (s.zoom * f) zoom_min zoom_max) } := by
  unfold apply_zoom_delta
  rw [screen_to_document_of_ne s a hz]

theorem clamp_zoom_ne_zero (x : ℚ) : clamp x zoom_min zoom_max ≠ 0 := by
  have h0 : (0 : ℚ) < zoom_min := by norm_num [zoom_min]
  exact ne_of_gt (lt_of_lt_of_le h0
    (clamp_mem x zoom_min zoom_max (by norm_num [zoom_min, zoom_max])).1)

/-- C2: `apply_zoom_delta` is cursor-anchored: whenever the state's zoom is
non-degenerate, the document point under the anchor screen point before the
zoom is still under that same screen point afterwards.  The claim's
concrete instance (zoom 1, pan (0,0), `apply_zoom_delta 2 (100,100)`) is
checked in the witness. -/
theorem apply_zoom_delta_cursor_anchored (s : ViewportState) (f : ℚ)
    (a : ℚ × ℚ) (hz : s.zoom ≠ 0) :
    screen_to_document (apply_zoom_delta s f a) a = screen_to_document s a := by
  have hnz : clamp (s.zoom * f) zoom_min zoom_max ≠ 0 := clamp_zoom_ne_zero _
  rw [apply_zoom_delta_of_ne s f a hz, screen_to_document_of_ne s a hz,
    screen_to_document_of_ne _ a hnz]
  rw [Option.some.injEq, Prod.mk.injEq]
  constructor <;> (field_simp; ring)

/-- Witness for C2 at the claim's concrete instance: from zoom 1 and pan
(0,0), zooming by 2 anchored at (100,100) keeps the document point
(100,100) under screen point (100,100). -/
theorem apply_zoom_delta_cursor_anchored_witness :
    initViewport.zoom ≠ 0 ∧
      screen_to_document (apply_zoom_delta initViewport 2 (100, 100)) (100, 100) =
        screen_to_document initViewport (100, 100) ∧
      screen_to_document initViewport (100, 100) = some (100, 100) :=
  ⟨by norm_num [initViewport],
   apply_zoom_delta_cursor_anchored initViewport 2 (100, 100) (by norm_num [initViewport]),
   by rw [screen_to_document_of_ne initViewport _ (by norm_num [initViewport])]
      norm_num [initViewport]⟩

/-- C6: for every view state with a valid (hence nonzero) zoom,
`forward_transform` and `inverse_transform` are mutual inverses —
`forward (inverse p) = p` and `inverse (forward p) = p` exactly in the
rational model, hence within the claimed 1e-5 absolute error — and
`inverse_transform` fails exactly on a degenerate (zero) zoom. -/
theorem transform_roundtrip (s : ViewportState) (p : ℚ × ℚ)
    (hs : s.validZoom) :
    (∃ inv, inverse_transform s = some inv ∧
      (forward_transform s).applyPt (inv.applyPt p) = p ∧
      inv.applyPt ((forward_transform s).applyPt p) = p ∧
      |((forward_transform s).applyPt (inv.applyPt p)).1 - p.1| ≤ 1 / 100000 ∧
      |((forward_transform s).applyPt (inv.applyPt p)).2 - p.2| ≤ 1 / 100000) ∧
    (∀ t : ViewportState, inverse_transform t = none ↔ t.zoom = 0) := by
  have hz : s.zoom ≠ 0 := by
    have h0 : (0 : ℚ) < zoom_min := by norm_num [zoom_min]
    exact ne_of_gt (lt_of_lt_of_le h0 hs.1)
  have h1 : (forward_transform s).applyPt
      ((⟨1 / s.zoom, 0, 0, 1 / s.zoom,
         -s.pan.1 / s.zoom, -s.pan.2 / s.zoom⟩ : Transform).applyPt p) = p := by
    rw [forward_applyPt]
    unfold Transform.applyPt
    rw [Prod.mk.injEq]
    constructor <;> (field_simp)
  have h2 : (⟨1 / s.zoom, 0, 0, 1 / s.zoom,
      -s.pan.1 / s.zoom, -s.pan.2 / s.zoom⟩ : Transform).applyPt
        ((forward_transform s).applyPt p) = p := by
    rw [forward_applyPt]
    unfold Transform.applyPt
    rw [Prod.mk.injEq]
    constructor <;> (field_simp; try ring)
  constructor
  · exact ⟨_, inverse_transform_of_ne s hz, h1, h2,
      by rw [h1]; norm_num, by rw [h1]; norm_num⟩
  · intro t
    unfold inverse_transform
    constructor
    · intro h
      by_contra hne
      rw [if_neg hne] at h
      exact Option.some_ne_none _ h
    · intro h
      rw [if_pos h]

/-- Witness for C6 at a concrete valid state and point. -/
theorem transform_roundtrip_witness :
    (⟨2, (3, 4), (800, 600), (400, 300)⟩ : ViewportState).validZoom ∧
      ((∃ inv, inverse_transform ⟨2, (3, 4), (800, 600), (400, 300)⟩ = some inv ∧
        (forward_transform ⟨2, (3, 4), (800, 600), (400, 300)⟩).applyPt
            (inv.applyPt (5, 6)) = (5, 6) ∧
        inv.applyPt ((forward_transform
            ⟨2, (3, 4), (800, 600), (400, 300)⟩).applyPt (5, 6)) = (5, 6) ∧
        |((forward_transform ⟨2, (3, 4), (800, 600), (400, 300)⟩).applyPt
            (inv.applyPt (5, 6))).1 - (5 : ℚ)| ≤ 1 / 100000 ∧
        |((forward_transform ⟨2, (3, 4), (800, 600), (400, 300)⟩).applyPt
            (inv.applyPt (5, 6))).2 - (6 : ℚ)| ≤ 1 / 100000) ∧
      (∀ t : ViewportState, inverse_transform t = none ↔ t.zoom = 0)) :=
  ⟨by constructor <;> norm_num [ViewportState.validZoom, zoom_min, zoom_max],
   transform_roundtrip ⟨2, (3, 4), (800, 600), (400, 300)⟩ (5, 6)
     (by constructor <;> norm_num [ViewportState.validZoom, zoom_min, zoom_max])⟩

theorem step_preserves_view (s : AppState) (e : WEvent) :
    (step s e).zoom = s.zoom ∧ (step s e).pan = s.pan ∧
      (step s e).dragging = s.dragging ∧
      (step s e).last_cursor_pos = s.last_cursor_pos := by
  unfold step
  split
  · exact ⟨rfl, rfl, rfl, rfl⟩
  · cases e <;>
      first
      | exact ⟨rfl, rfl, rfl, rfl⟩
      | (simp only; split_ifs <;> exact ⟨rfl, rfl, rfl, rfl⟩)

theorem runEvents_preserves_view (es : List WEvent) (s : AppState) :
    (runEvents s es).zoom = s.zoom ∧ (runEvents s es).pan = s.pan ∧
      (runEvents s es).dragging = s.dragging ∧
      (runEvents s es).last_cursor_pos = s.last_cursor_pos := by
  induction es generalizing s with
  | nil => exact ⟨rfl, rfl, rfl, rfl⟩
  | cons e rest ih =>
    have h1 := step_preserves_view s e
    have h2 := ih (step s e)
    exact ⟨h2.1.trans h1.1, h2.2.1.trans h1.2.1,
      h2.2.2.1.trans h1.2.2.1, h2.2.2.2.trans h1.2.2.2⟩

/-- C10: in the `src/src` revision no event handler mutates the view-state
variables: over every sequence of delivered window events, `zoom` stays
1.0, `pan` stays (0,0), `dragging` stays false and `last_cursor_pos` stays
unset, so the view transform handed to rendering is constant for the
entire run. -/
theorem view_state_never_mutated (es : List WEvent) :
    (runEvents initAppState es).zoom = 1 ∧
      (runEvents initAppState es).pan = (0, 0) ∧
      (runEvents initAppState es).dragging = false ∧
      (runEvents initAppState es).last_cursor_pos = none :=
  runEvents_preserves_view es initAppState

/-- C3 (code evidence): the quit combination never fires in
`src/src/vectorlab.rs`.  Delivering `ModifiersChanged(Control)` and then a
non-repeat press of "q" produces no quit signal — the `modifiers` local is
re-initialized to its default at the top of every dispatch, so the
control-key test is always false — and a press of Escape produces none
either, since no handler matches it; only `CloseRequested` exits. -/
theorem quit_key_never_quits :
    (runEvents initAppState
      [.modifiersChanged true,
       .keyboardInput (.character "q") true false]).exited = false ∧
      (runEvents initAppState
        [.keyboardInput .escape true false]).exited = false ∧
      (runEvents initAppState [.closeRequested]).exited = true := by
  exact ⟨rfl, rfl, rfl⟩

/-- C7 counterexample: handling a `Resized` event does not always succeed.
A resize with a zero dimension panics (the `try_into().unwrap()` to
`NonZeroU32` in the resize arm aborts), refuting "always succeeds". -/
theorem resized_zero_dimension_panics :
    (step initAppState (.resized 0 600)).panicked = true ∧
      initAppState.panicked = false := by
  exact ⟨rfl, rfl⟩

/-- C7 (amended): handling `Resized(w,h)` with both dimensions nonzero
replaces only the (surface) viewport size — every other field, in
particular pan and zoom, is untouched — and resizing to (800,600) and then
to (1024,768) leaves zoom and pan exactly as they were. -/
theorem resized_preserves_zoom_pan (s : AppState) (w h : ℕ)
    (hp : s.panicked = false) (hw : w ≠ 0) (hh : h ≠ 0) :
    step s (.resized w h) =
        (if s.glStateSome then { s with surfaceSize := (w, h) } else s) ∧
      (step s (.resized w h)).zoom = s.zoom ∧
      (step s (.resized w h)).pan = s.pan ∧
      (runEvents s [.resized 800 600, .resized 1024 768]).zoom = s.zoom ∧
      (runEvents s [.resized 800 600, .resized 1024 768]).pan = s.pan := by
  have hmain : step s (.resized w h) =
      (if s.glStateSome then { s with surfaceSize := (w, h) } else s) := by
    unfold step
    rw [if_neg (by rw [hp]; exact Bool.false_ne_true)]
    simp only
    split_ifs with hgl hzero
    · cases hzero with
      | inl h0 => exact absurd h0 hw
      | inr h0 => exact absurd h0 hh
    · rfl
    · rfl
  have hrun := runEvents_preserves_view [.resized 800 600, .resized 1024 768] s
  refine ⟨hmain, ?_, ?_, hrun.1, hrun.2.1⟩ <;>
    rw [hmain] <;> split <;> rfl

/-- Witness for C7's amended theorem at the claim's concrete resizes. -/
theorem resized_preserves_zoom_pan_witness :
    initAppState.panicked = false ∧ (800 : ℕ) ≠ 0 ∧ (600 : ℕ) ≠ 0 ∧
      (runEvents initAppState
        [.resized 800 600, .resized 1024 768]).zoom = initAppState.zoom ∧
      (runEvents initAppState
        [.resized 800 600, .resized 1024 768]).pan = initAppState.pan :=
  ⟨rfl, by decide, by decide,
   (resized_preserves_zoom_pan initAppState 800 600 rfl
      (by decide) (by decide)).2.2.2.1,
   (resized_preserves_zoom_pan initAppState 800 600 rfl
      (by decide) (by decide)).2.2.2.2⟩

/-- C4 counterexample: under the spec's own transition rules the first
move after a press only sets the baseline, so starting from pan (0,0), a
left press at (50,50) followed by a move to (80,70) leaves pan at (0,0) —
not (30,20) as the claim's concrete example asserts. -/
theorem drag_first_move_sets_baseline_only :
    (run_pointer initInputState
        [.pointerButtonLeft true, .pointerMoved 80 70]).vs.pan = (0, 0) ∧
      (run_pointer initInputState
        [.pointerButtonLeft true, .pointerMoved 80 70]).vs.pan ≠ (30, 20) := by
  have h : (run_pointer initInputState
      [.pointerButtonLeft true, .pointerMoved 80 70]).vs.pan = (0, 0) := rfl
  refine ⟨h, ?_⟩
  rw [h]
  intro hc
  have h0 : (0 : ℚ) = 30 := congrArg Prod.fst hc
  norm_num at h0

/-- C4 (amended): during a drag begun by a left press, each move adds the
delta from the last recorded pointer position to pan, and the first move
after the press only sets the baseline (zero delta): from pan (0,0), a
press at (50,50) and a move to (80,70) leave pan (0,0) (baseline (80,70));
a further move to (110,90) makes pan (30,20); repeating the move to
(110,90) leaves pan (30,20); and after the button is released, further
moves leave pan unchanged. -/
theorem drag_round_trip :
    (run_pointer initInputState
        [.pointerButtonLeft true, .pointerMoved 80 70]).vs.pan = (0, 0) ∧
      (run_pointer initInputState
        [.pointerButtonLeft true, .pointerMoved 80 70]).last_pointer_screen_pos
        = some (80, 70) ∧
      (run_pointer initInputState
        [.pointerButtonLeft true, .pointerMoved 80 70,
         .pointerMoved 110 90]).vs.pan = (30, 20) ∧
      (run_pointer initInputState
        [.pointerButtonLeft true, .pointerMoved 80 70, .pointerMoved 110 90,
         .pointerMoved 110 90]).vs.pan = (30, 20) ∧
      (run_pointer initInputState
        [.pointerButtonLeft true, .pointerMoved 80 70, .pointerMoved 110 90,
         .pointerMoved 110 90, .pointerButtonLeft false,
         .pointerMoved 500 500]).vs.pan = (30, 20) := by
  refine ⟨rfl, rfl, ?_, ?_, ?_⟩ <;>
    norm_num [run_pointer, input_step, apply_pan_delta, initInputState,
      initViewport]

/-- C8: `mark_dirty` is idempotent (it only sets a boolean flag) and
`take_dirty` returns the current flag and clears it: from any scheduler,
three consecutive `mark_dirty` calls followed by one `take_dirty` return
true exactly once, and a further `take_dirty` with no intervening
`mark_dirty` returns false. -/
theorem render_scheduler_coalesces (r : RenderScheduler) :
    mark_dirty (mark_dirty r) = mark_dirty r ∧
      (take_dirty (mark_dirty (mark_dirty (mark_dirty r)))).1 = true ∧
      (take_dirty
        (take_dirty (mark_dirty (mark_dirty (mark_dirty r)))).2).1 = false :=
  ⟨rfl, rfl, rfl⟩

/-- C9: the program takes one optional positional argument naming the
initial document (no argument yields none; extra arguments are ignored,
there is no flag handling), absence falls back to the built-in 400×300
placeholder document, and the transform operates normally against the
placeholder extent (the initial view maps it through the forward transform
and `screen_to_document` recovers it). -/
theorem cli_optional_positional_arg (prog p : String) (rest : List String) :
    svg_file_arg [prog] = none ∧
      svg_file_arg (prog :: p :: rest) = some p ∧
      load_initial_tree none = placeholderTree ∧
      placeholderTree.size = (400, 300) ∧
      screen_to_document initViewport
          ((forward_transform initViewport).applyPt placeholderTree.size) =
        some placeholderTree.size := by
  refine ⟨rfl, rfl, rfl, rfl, ?_⟩
  rw [forward_applyPt,
    screen_to_document_of_ne _ _ (by norm_num [initViewport])]
  norm_num [initViewport, placeholderTree]

end VectorLab
